import Mathlib

/-!
Verification of `src/supervoxel_loss/supervoxel_affinity_3d.py`
(AllenNeuralDynamics/supervoxel-loss).

The Python module defines a supervoxel-based loss for affinity networks:
* `get_pair` / `get_aff`   - pairwise affinity extraction from a label volume,
* `get_pair_first`         - sub-windowing used by the affinity-channel decoder,
* `SuperVoxelAffinity.Decoder.forward` - channel selection plus sub-windowing,
* `SuperVoxelAffinity.get_critical_masks` - parallel critical-component
  analysis over a batch,
* `SuperVoxelAffinity.forward` - the top-level loss aggregation.

Embedding choices:
* Tensor values are modelled by `ℚ` (real/float arithmetic modelled exactly).
* A volume with three trailing spatial dimensions is `Tensor3`; a rank-4
  tensor (channel plus three spatial dimensions) is `Tensor4`.  The data
  field is a total function; only indices below the shape are meaningful,
  but pointwise operations are modelled pointwise everywhere.
* Python basic slicing `a[start:stop]` with `start ≥ 0` clamps: a negative
  `stop` counts from the end, an overlong `stop` clamps to the length, and
  an empty window yields length 0.  `sliceLen` captures the resulting length.
* Fallible Python code (IndexError from indexing, the NameError raised by
  `get_pair_first`, assertion failures) is modelled with `Except String`.
* Device moves (`toGPU` / `toCPU`) and dtype casts are identities here: label
  values are already modelled as exact numbers.
-/

/-- Length of the Python slice `a[start:stop]` of an axis of length `len`,
where `start` is a non-negative offset and `stop` may be negative
(counting from the end), exactly as Python basic slicing computes it. -/
def sliceLen (len start : Nat) (stop : Int) : Nat :=
  (if stop < 0 then ((len : Int) + stop).toNat else min stop.toNat len) - min start len

/-- A rank-3 tensor: three spatial dimensions (the trailing dimensions of the
PyTorch tensors in the source).  `data` is total; indices below the shape
are the meaningful ones. -/
structure Tensor3 where
  s0 : Nat
  s1 : Nat
  s2 : Nat
  data : Nat → Nat → Nat → ℚ

instance : Inhabited Tensor3 := ⟨⟨0, 0, 0, fun _ _ _ => 0⟩⟩

/-- A rank-4 tensor: a channel dimension followed by three spatial
dimensions, as in `pred_affs[i, ...]` of shape `(num_edges, H, W, D)`. -/
structure Tensor4 where
  c : Nat
  s0 : Nat
  s1 : Nat
  s2 : Nat
  data : Nat → Nat → Nat → Nat → ℚ

instance : Inhabited Tensor4 := ⟨⟨0, 0, 0, 0, fun _ _ _ _ => 0⟩⟩

/-- Channel `j` of a rank-4 tensor, `t[j, :, :, :]`. -/
def Tensor4.chan (t : Tensor4) (j : Nat) : Tensor3 :=
  ⟨t.s0, t.s1, t.s2, t.data j⟩

/-- A 3-D integer offset vector ("edge affinity"), e.g. `(1, 0, 0)`. -/
structure Edge3 where
  e0 : Int
  e1 : Int
  e2 : Int
deriving DecidableEq

instance : Inhabited Edge3 := ⟨⟨0, 0, 0⟩⟩

/-- Negation of an edge, used to state direction symmetry. -/
def Edge3.neg (e : Edge3) : Edge3 := ⟨-e.e0, -e.e1, -e.e2⟩

/-- `offset1 = np.maximum(edge, 0)` componentwise (`Int.toNat` is exactly
`max · 0` for integers). -/
def offset1 (e : Edge3) : Nat × Nat × Nat :=
  (e.e0.toNat, e.e1.toNat, e.e2.toNat)

/-- `offset2 = np.maximum(-edge, 0)` componentwise. -/
def offset2 (e : Edge3) : Nat × Nat × Nat :=
  ((-e.e0).toNat, (-e.e1).toNat, (-e.e2).toNat)

/-- The Python slice `t[a0 : b0, a1 : b1, a2 : b2]` on the three spatial
axes of a rank-3 tensor (starts are non-negative, stops may be negative). -/
def slice3 (t : Tensor3) (a0 a1 a2 : Nat) (b0 b1 b2 : Int) : Tensor3 :=
  ⟨sliceLen t.s0 a0 b0, sliceLen t.s1 a1 b1, sliceLen t.s2 a2 b2,
    fun i j k => t.data (a0 + i) (a1 + j) (a2 + k)⟩

/-- The same slice on the trailing three axes of a rank-4 tensor; the channel
axis passes through (`t[..., a0 : b0, a1 : b1, a2 : b2]`). -/
def slice4 (t : Tensor4) (a0 a1 a2 : Nat) (b0 b1 b2 : Int) : Tensor4 :=
  ⟨t.c, sliceLen t.s0 a0 b0, sliceLen t.s1 a1 b1, sliceLen t.s2 a2 b2,
    fun ch i j k => t.data ch (a0 + i) (a1 + j) (a2 + k)⟩

/-- Source `get_pair(labels, edge)`: extracts the two sub-volumes
`labels1 = labels[..., o1 : shape - o2]` and `labels2 = labels[..., o2 : shape - o1]`
per trailing axis, with `o1 = max(edge, 0)` and `o2 = max(-edge, 0)`. -/
def get_pair (labels : Tensor3) (edge : Edge3) : Tensor3 × Tensor3 :=
  let o1 := offset1 edge
  let o2 := offset2 edge
  (slice3 labels o1.1 o1.2.1 o1.2.2
      ((labels.s0 : Int) - o2.1) ((labels.s1 : Int) - o2.2.1) ((labels.s2 : Int) - o2.2.2),
   slice3 labels o2.1 o2.2.1 o2.2.2
      ((labels.s0 : Int) - o1.1) ((labels.s1 : Int) - o1.2.1) ((labels.s2 : Int) - o1.2.2))

/-- Source `get_aff(labels, edge)`: `(o1 == o2) & (o1 != 0)` elementwise on
the two sub-volumes of `get_pair`, cast back to the label dtype (0/1 values).
The elementwise comparison carries the shape of the first sub-volume; in the
source, PyTorch would raise on non-broadcastable shapes, a situation no
theorem below exercises (all are stated for offsets that fit the volume,
where the two shapes are proved equal). -/
def get_aff (labels : Tensor3) (edge : Edge3) : Tensor3 :=
  let p := get_pair labels edge
  ⟨p.1.s0, p.1.s1, p.1.s2,
    fun i j k => if p.1.data i j k = p.2.data i j k ∧ p.1.data i j k ≠ 0 then 1 else 0⟩

/-- `get_pair` on a rank-4 tensor (the source slices only the trailing three
axes; leading axes pass through the ellipsis). -/
def get_pair4 (labels : Tensor4) (edge : Edge3) : Tensor4 × Tensor4 :=
  let o1 := offset1 edge
  let o2 := offset2 edge
  (slice4 labels o1.1 o1.2.1 o1.2.2
      ((labels.s0 : Int) - o2.1) ((labels.s1 : Int) - o2.2.1) ((labels.s2 : Int) - o2.2.2),
   slice4 labels o2.1 o2.2.1 o2.2.2
      ((labels.s0 : Int) - o1.1) ((labels.s1 : Int) - o1.2.1) ((labels.s2 : Int) - o1.2.2))

/-- `get_aff` on a rank-4 tensor. -/
def get_aff4 (labels : Tensor4) (edge : Edge3) : Tensor4 :=
  let p := get_pair4 labels edge
  ⟨p.1.c, p.1.s0, p.1.s1, p.1.s2,
    fun ch i j k => if p.1.data ch i j k = p.2.data ch i j k ∧ p.1.data ch i j k ≠ 0 then 1 else 0⟩

/-- The offsets of an edge fit inside the volume: `|e|` is at most the length
of the corresponding spatial axis, componentwise. -/
def fits (t : Tensor3) (e : Edge3) : Prop :=
  e.e0.natAbs ≤ t.s0 ∧ e.e1.natAbs ≤ t.s1 ∧ e.e2.natAbs ≤ t.s2

instance (t : Tensor3) (e : Edge3) : Decidable (fits t e) := by
  unfold fits; infer_instance

/-- Spec 4.1, first sub-volume: `sub_a = volume[offset1 : shape - offset2]`
read mathematically — the window starting at `offset1` of length
`shape - |edge|` per axis. -/
def spec_sub_a (volume : Tensor3) (edge : Edge3) : Tensor3 :=
  let o1 := offset1 edge
  ⟨volume.s0 - edge.e0.natAbs, volume.s1 - edge.e1.natAbs, volume.s2 - edge.e2.natAbs,
    fun i j k => volume.data (o1.1 + i) (o1.2.1 + j) (o1.2.2 + k)⟩

/-- Spec 4.1, second sub-volume: `sub_b = volume[offset2 : shape - offset1]`. -/
def spec_sub_b (volume : Tensor3) (edge : Edge3) : Tensor3 :=
  let o2 := offset2 edge
  ⟨volume.s0 - edge.e0.natAbs, volume.s1 - edge.e1.natAbs, volume.s2 - edge.e2.natAbs,
    fun i j k => volume.data (o2.1 + i) (o2.2.1 + j) (o2.2.2 + k)⟩

/-- Spec 4.1 affinity: `(sub_a == sub_b) AND (sub_a != 0)`, cast to the
volume's element type. -/
def spec_affinity (volume : Tensor3) (edge : Edge3) : Tensor3 :=
  let a := spec_sub_a volume edge
  let b := spec_sub_b volume edge
  ⟨a.s0, a.s1, a.s2,
    fun i j k => if a.data i j k = b.data i j k ∧ a.data i j k ≠ 0 then 1 else 0⟩

-- Basic facts about offsets and slice lengths.

theorem toNat_add_toNat_neg (e : Int) : e.toNat + (-e).toNat = e.natAbs := by
  omega

theorem sliceLen_of_fits (s o1 o2 : Nat) (h : o1 + o2 ≤ s) :
    sliceLen s o1 ((s : Int) - o2) = s - (o1 + o2) := by
  unfold sliceLen
  split <;> omega

example : sliceLen 4 0 (-1) = 3 := by decide
example : sliceLen 4 5 4 = 0 := by decide
example : sliceLen 1 2 (-1) = 0 := by decide

/-- Source `get_pair_first(labels, edge)`: the body computes
`shape = labels.size()[-3:]` and the two offsets, and then evaluates
`ret = arr[..., offset1[0]: shape[0] - offset2[0], ...]` — but `arr` is not
a name defined anywhere in the module (the surrounding code and the
docstring use `labels`).  Python therefore raises
`NameError: name 'arr' is not defined` on every call, before any slicing
happens, so the embedding returns that error unconditionally. -/
def get_pair_first (labels : Tensor4) (edge : Edge3) : Except String Tensor4 :=
  Except.error "NameError: name 'arr' is not defined"

/-- `x[..., [i], :, :, :]`: advanced indexing with the one-element list `[i]`
on the channel axis keeps a channel dimension of size 1 whose only channel
is channel `i` of `x`. -/
def selectChannel (x : Tensor4) (i : Nat) : Tensor4 :=
  ⟨1, x.s0, x.s1, x.s2, fun _ a b d => x.data i a b d⟩

/-- Source `SuperVoxelAffinity.Decoder.forward(x, i)`: asserts that the
channel count of `x` equals the number of configured edges and that
`0 ≤ i <` channel count, then returns
`get_pair_first(x[..., [i], :, :, :], edges[i])`.  Failed `assert`
statements are modelled as errors. -/
def Decoder_forward (edges : List Edge3) (x : Tensor4) (i : Nat) :
    Except String Tensor4 :=
  let num_channels := x.c
  if num_channels = edges.length then
    if i < num_channels then
      get_pair_first (selectChannel x i) (edges.getD i default)
    else Except.error "AssertionError"
  else Except.error "AssertionError"

/-- Shape-level model of `get_pair` for a volume of arbitrary rank, given as
its shape (a list of axis lengths).  The source computes
`shape = labels.size()[-3:]` and then reads `shape[0]`, `shape[1]`,
`shape[2]` while building the slice indices: when the volume has fewer than
3 dimensions this raises an IndexError; otherwise basic slicing never fails
(out-of-range bounds clamp) and the leading axes pass through the ellipsis.
Returns the shapes of the two sub-volumes. -/
def get_pair_checked (shape : List Nat) (edge : Edge3) : Except String (List Nat × List Nat) :=
  if h : 3 ≤ shape.length then
    let lead := shape.take (shape.length - 3)
    let s0 := shape.getD (shape.length - 3) 0
    let s1 := shape.getD (shape.length - 2) 0
    let s2 := shape.getD (shape.length - 1) 0
    let o1 := offset1 edge
    let o2 := offset2 edge
    Except.ok
      (lead ++ [sliceLen s0 o1.1 ((s0 : Int) - o2.1),
                sliceLen s1 o1.2.1 ((s1 : Int) - o2.2.1),
                sliceLen s2 o1.2.2 ((s2 : Int) - o2.2.2)],
       lead ++ [sliceLen s0 o2.1 ((s0 : Int) - o1.1),
                sliceLen s1 o2.2.1 ((s1 : Int) - o1.2.1),
                sliceLen s2 o2.2.2 ((s2 : Int) - o1.2.2)])
  else Except.error "IndexError: tuple index out of range"

/-- A result returned by a worker task, as produced by the source helper
`get_critical_mask(target, pred, process_id, critical_type)`: the example
index it originated from, the binary critical mask, the number of critical
components, and the analysis type (`-1` for splits, `1` for merges). -/
structure TaggedResult where
  pid : Nat
  mask : Tensor3
  n : Nat
  ctype : Int

/-- Source `get_critical_mask(target, pred, process_id, critical_type)`:
runs `detect_critical(target, pred)` (the external critical detector,
abstracted as the parameter `detect`) and tags the result. -/
def get_critical_mask (detect : Tensor3 → Tensor3 → Tensor3 × Nat)
    (target pred : Tensor3) (process_id : Nat) (critical_type : Int) : TaggedResult :=
  let r := detect target pred
  ⟨process_id, r.1, r.2, critical_type⟩

/-- The tasks submitted to the process pool by `get_critical_masks`, in
submission order: for each example `i`, a split task
`get_critical_mask(targets[i, 0, ...], preds[i], i, -1)` and a merge task
`get_critical_mask(preds[i], targets[i, 0, ...], i, 1)`.  Each target
example carries a leading channel axis (shape `(1, H, W, D)`), so
`targets[i, 0, ...]` is channel 0 of target example `i`. -/
def criticalTasks (detect : Tensor3 → Tensor3 → Tensor3 × Nat)
    (preds : List Tensor3) (targets : List Tensor4) : List TaggedResult :=
  (List.range preds.length).flatMap fun i =>
    [get_critical_mask detect ((targets.getD i default).chan 0) (preds.getD i default) i (-1),
     get_critical_mask detect (preds.getD i default) ((targets.getD i default).chan 0) i 1]

/-- The accumulator of `get_critical_masks`: the batch mask array
`masks` (one slot per example) and the running `stats` sums. -/
structure CMState where
  masks : List Tensor3
  splits : ℚ
  merges : ℚ

/-- `masks[i] += coeff * mask` pointwise: in-place scaled addition into the
slot, keeping the slot's shape (numpy `+=` writes into the existing array). -/
def addScaled (coeff : ℚ) (m t : Tensor3) : Tensor3 :=
  ⟨t.s0, t.s1, t.s2, fun i j k => t.data i j k + coeff * m.data i j k⟩

/-- Replace element `i` of a list by `f` of it (identity when out of range). -/
def updateAt {α : Type} (l : List α) (i : Nat) (f : α → α) : List α :=
  match l, i with
  | [], _ => []
  | a :: l, 0 => f a :: l
  | a :: l, Nat.succ i => a :: updateAt l i f

/-- Processing of one completed worker result inside the `as_completed` loop
of `get_critical_masks`: a split result adds `beta * mask_i` into
`masks[i]` and `n_criticals / len(preds)` to `stats["Splits"]`; a merge
result adds `(1 - beta) * mask_i` and updates `stats["Merges"]`. -/
def processResult (beta : ℚ) (B : Nat) (st : CMState) (r : TaggedResult) : CMState :=
  if r.ctype = -1 then
    { st with masks := updateAt st.masks r.pid (addScaled beta r.mask),
              splits := st.splits + (r.n : ℚ) / (B : ℚ) }
  else
    { st with masks := updateAt st.masks r.pid (addScaled (1 - beta) r.mask),
              merges := st.merges + (r.n : ℚ) / (B : ℚ) }

/-- A zero tensor of the given shape, one slot of
`masks = np.zeros((len(preds),) + preds[0].shape)`. -/
def zerosLike (t : Tensor3) : Tensor3 :=
  ⟨t.s0, t.s1, t.s2, fun _ _ _ => 0⟩

/-- Source `SuperVoxelAffinity.get_critical_masks(preds, targets)`.  On an
empty batch, `preds[0].shape` raises an IndexError before any task is
submitted.  Otherwise all `2 * len(preds)` analyses are dispatched and the
completed results are folded into the zero-initialised state; the fold below
uses submission order, and the permutation-invariance theorem shows the
result is the same for every completion order.  Returns the batch mask list
and the stats pair `(Splits, Merges)`. -/
def get_critical_masks (detect : Tensor3 → Tensor3 → Tensor3 × Nat) (beta : ℚ)
    (preds : List Tensor3) (targets : List Tensor4) :
    Except String (List Tensor3 × ℚ × ℚ) :=
  match preds with
  | [] => Except.error "IndexError: list index out of range"
  | p0 :: _ =>
    let init : CMState := ⟨preds.map (fun _ => zerosLike p0), 0, 0⟩
    let final := (criticalTasks detect preds targets).foldl
      (processResult beta preds.length) init
    Except.ok (final.masks, final.splits, final.merges)

/-- Source `SuperVoxelAffinity.binarize(pred)`:
`(pred > threshold).astype(np.float32)` elementwise. -/
def binarize (threshold : ℚ) (t : Tensor4) : Tensor4 :=
  ⟨t.c, t.s0, t.s1, t.s2, fun c i j k => if threshold < t.data c i j k then 1 else 0⟩

/-- Source `SuperVoxelAffinity.to_labels(pred_affs_i)`: binarize, run the
external watershed collaborator and keep the first (finest) label volume of
its lazy sequence, cast to integer labels.  The collaborator (first element
plus integer cast) is abstracted as the parameter `watershed`. -/
def to_labels (watershed : Tensor4 → Tensor3) (threshold : ℚ) (pred_affs_i : Tensor4) : Tensor3 :=
  watershed (binarize threshold pred_affs_i)

/-- Source `SuperVoxelAffinity.get_pred_labels(pred_affs)`: host transfer
(identity here) followed by `to_labels` per batch example. -/
def get_pred_labels (watershed : Tensor4 → Tensor3) (threshold : ℚ)
    (pred_affs : List Tensor4) : List Tensor3 :=
  pred_affs.map (to_labels watershed threshold)

/-- Elementwise application of the loss criterion,
`loss_j = criterion(pred_affs_j, target_affs_j)` (shapes coincide on the
reachable inputs; the shape of the first argument is carried). -/
def map2T4 (f : ℚ → ℚ → ℚ) (a b : Tensor4) : Tensor4 :=
  ⟨a.c, a.s0, a.s1, a.s2, fun c i j k => f (a.data c i j k) (b.data c i j k)⟩

/-- Scalar multiple of a rank-4 tensor. -/
def scaleT4 (q : ℚ) (t : Tensor4) : Tensor4 :=
  ⟨t.c, t.s0, t.s1, t.s2, fun c i j k => q * t.data c i j k⟩

/-- Elementwise sum of two rank-4 tensors (shapes coincide on the reachable
inputs). -/
def addT4 (a b : Tensor4) : Tensor4 :=
  ⟨a.c, a.s0, a.s1, a.s2, fun c i j k => a.data c i j k + b.data c i j k⟩

/-- `mask_aff_j * loss_j`: a rank-3 tensor multiplied elementwise into a
rank-4 tensor, broadcasting over the channel axis as torch does. -/
def mulB (m : Tensor3) (t : Tensor4) : Tensor4 :=
  ⟨t.c, t.s0, t.s1, t.s2, fun c i j k => m.data i j k * t.data c i j k⟩

/-- Sum of all entries of a rank-4 tensor within its shape. -/
def sumT4 (t : Tensor4) : ℚ :=
  (((List.range t.c).map (fun c =>
    (((List.range t.s0).map (fun i =>
      (((List.range t.s1).map (fun j =>
        (((List.range t.s2).map (fun k => t.data c i j k)).sum))).sum))).sum))).sum)

/-- `.mean()` of a rank-4 tensor: sum over all entries divided by the number
of entries (on an empty tensor torch yields NaN; `ℚ` division by zero yields
0 — no theorem below exercises that case). -/
def meanT4 (t : Tensor4) : ℚ :=
  sumT4 t / ((t.c * t.s0 * t.s1 * t.s2 : Nat) : ℚ)

/-- Source `SuperVoxelAffinity.forward(pred_affs, target_labels)`:
decode predicted labels, compute the critical masks and stats, then for
every example `i` and edge `j` accumulate
`mean((1 - alpha) * loss_j + alpha * mask_aff_j * loss_j)` where
`loss_j = criterion(decoder(pred_affs[i], j), get_aff(target_labels[i], edges[j]))`.
The external collaborators (watershed, critical detector, loss criterion)
are parameters; device moves are identities.  Any error raised along the way
(the empty-batch IndexError of `get_critical_masks`, the decoder's
NameError) aborts the call.  Returns the scalar loss and the stats pair. -/
def svForward (edges : List Edge3) (alpha beta threshold : ℚ)
    (criterion : ℚ → ℚ → ℚ) (watershed : Tensor4 → Tensor3)
    (detect : Tensor3 → Tensor3 → Tensor3 × Nat)
    (pred_affs : List Tensor4) (target_labels : List Tensor4) :
    Except String (ℚ × ℚ × ℚ) := do
  let pred_labels := get_pred_labels watershed threshold pred_affs
  let r ← get_critical_masks detect beta pred_labels target_labels
  let loss ← (List.range pred_affs.length).foldlM (fun acc i => do
    let mask_i := r.1.getD i default
    let target_labels_i := target_labels.getD i default
    (List.range edges.length).foldlM (fun acc2 j => do
      let edge := edges.getD j default
      let pred_affs_j ← Decoder_forward edges (pred_affs.getD i default) j
      let target_affs_j := get_aff4 target_labels_i edge
      let mask_aff_j := get_aff mask_i edge
      let loss_j := map2T4 criterion pred_affs_j target_affs_j
      let term_1 := scaleT4 (1 - alpha) loss_j
      let term_2 := scaleT4 alpha (mulB mask_aff_j loss_j)
      pure (acc2 + meanT4 (addT4 term_1 term_2))) acc) (0 : ℚ)
  pure (loss, r.2.1, r.2.2)

-- Concrete sample inputs used by the closed witness and counterexample
-- theorems below.

/-- A concrete 2x2x2 label volume. -/
def sampleT3 : Tensor3 :=
  ⟨2, 2, 2, fun i j _ => if i = 0 ∧ j = 0 then 0 else 1⟩

/-- A concrete single-channel 2x2x2 tensor (a target example with its
leading channel axis, or a one-edge affinity prediction). -/
def sampleT4 : Tensor4 :=
  ⟨1, 2, 2, 2, fun _ i j _ => if i = 0 ∧ j = 0 then 0 else 1⟩

/-- A second concrete single-channel example. -/
def sampleT4b : Tensor4 :=
  ⟨1, 2, 2, 2, fun _ i _ _ => if i = 0 then 2 else 0⟩

/-- A concrete stand-in for the external critical detector: masks the voxels
where the two volumes differ and reports one critical component. -/
def sampleDetect : Tensor3 → Tensor3 → Tensor3 × Nat :=
  fun a b => (⟨a.s0, a.s1, a.s2, fun i j k => if a.data i j k = b.data i j k then 0 else 1⟩, 1)

/-- A concrete stand-in for the external watershed collaborator. -/
def sampleWatershed : Tensor4 → Tensor3 :=
  fun t => t.chan 0

-- Shape of a rank-3 tensor as a triple.

/-- The spatial shape of a rank-3 tensor. -/
def Tensor3.shape (t : Tensor3) : Nat × Nat × Nat := (t.s0, t.s1, t.s2)

theorem get_pair_eq_spec (labels : Tensor3) (e : Edge3) (h : fits labels e) :
    get_pair labels e = (spec_sub_a labels e, spec_sub_b labels e) := by
  obtain ⟨h0, h1, h2⟩ := h
  have l0 : sliceLen labels.s0 e.e0.toNat ((labels.s0 : Int) - ((-e.e0).toNat : Int)) =
      labels.s0 - e.e0.natAbs := by
    have := sliceLen_of_fits labels.s0 e.e0.toNat (-e.e0).toNat (by omega)
    omega
  have l1 : sliceLen labels.s1 e.e1.toNat ((labels.s1 : Int) - ((-e.e1).toNat : Int)) =
      labels.s1 - e.e1.natAbs := by
    have := sliceLen_of_fits labels.s1 e.e1.toNat (-e.e1).toNat (by omega)
    omega
  have l2 : sliceLen labels.s2 e.e2.toNat ((labels.s2 : Int) - ((-e.e2).toNat : Int)) =
      labels.s2 - e.e2.natAbs := by
    have := sliceLen_of_fits labels.s2 e.e2.toNat (-e.e2).toNat (by omega)
    omega
  have m0 : sliceLen labels.s0 (-e.e0).toNat ((labels.s0 : Int) - (e.e0.toNat : Int)) =
      labels.s0 - e.e0.natAbs := by
    have := sliceLen_of_fits labels.s0 (-e.e0).toNat e.e0.toNat (by omega)
    omega
  have m1 : sliceLen labels.s1 (-e.e1).toNat ((labels.s1 : Int) - (e.e1.toNat : Int)) =
      labels.s1 - e.e1.natAbs := by
    have := sliceLen_of_fits labels.s1 (-e.e1).toNat e.e1.toNat (by omega)
    omega
  have m2 : sliceLen labels.s2 (-e.e2).toNat ((labels.s2 : Int) - (e.e2.toNat : Int)) =
      labels.s2 - e.e2.natAbs := by
    have := sliceLen_of_fits labels.s2 (-e.e2).toNat e.e2.toNat (by omega)
    omega
  simp only [get_pair, spec_sub_a, spec_sub_b, slice3, offset1, offset2]
  rw [l0, l1, l2, m0, m1, m2]

theorem get_aff_eq_spec (labels : Tensor3) (e : Edge3) (h : fits labels e) :
    get_aff labels e = spec_affinity labels e := by
  have hp := get_pair_eq_spec labels e h
  simp only [get_aff, spec_affinity, hp]

theorem indicator_symm (a b : ℚ) :
    (if a = b ∧ a ≠ 0 then (1 : ℚ) else 0) = (if b = a ∧ b ≠ 0 then 1 else 0) := by
  by_cases hab : a = b
  · subst hab; rfl
  · simp [hab, Ne.symm hab]

theorem get_pair_neg (L : Tensor3) (e : Edge3) :
    get_pair L e.neg = ((get_pair L e).2, (get_pair L e).1) := by
  simp only [get_pair, Edge3.neg, offset1, offset2, neg_neg]

/-- C2: for every volume with three trailing spatial dimensions and every
integer 3-D offset edge that fits inside the volume, `get_pair` returns the
two sub-volumes `sub_a = volume[offset1 : shape - offset2]` and
`sub_b = volume[offset2 : shape - offset1]` per axis with
`offset1 = max(edge, 0)` and `offset2 = max(-edge, 0)`, and `get_aff`
equals `(sub_a == sub_b) AND (sub_a != 0)` cast to the volume's element
type.  Both functions are pure Lean functions, so they are deterministic and
side-effect free by construction. -/
theorem extract_affinity_match_spec (volume : Tensor3) (edge : Edge3)
    (h : fits volume edge) :
    get_pair volume edge = (spec_sub_a volume edge, spec_sub_b volume edge) ∧
    get_aff volume edge = spec_affinity volume edge :=
  ⟨get_pair_eq_spec volume edge h, get_aff_eq_spec volume edge h⟩

theorem extract_affinity_match_spec_witness :
    fits sampleT3 ⟨1, 0, 0⟩ ∧
    (get_pair sampleT3 ⟨1, 0, 0⟩ =
        (spec_sub_a sampleT3 ⟨1, 0, 0⟩, spec_sub_b sampleT3 ⟨1, 0, 0⟩) ∧
      get_aff sampleT3 ⟨1, 0, 0⟩ = spec_affinity sampleT3 ⟨1, 0, 0⟩) :=
  ⟨by decide, extract_affinity_match_spec sampleT3 ⟨1, 0, 0⟩ (by decide)⟩

/-- C6: for every label volume with three trailing spatial dimensions and
every integer 3-D offset that fits inside it, the affinity of the volume at
the offset equals the affinity at the negated offset voxel-for-voxel: the
two extraction windows coincide, and the background test on the first
versus the second sub-volume agrees wherever the equality test holds. -/
theorem affinity_direction_symm (L : Tensor3) (e : Edge3) (h : fits L e) :
    get_aff L e = get_aff L e.neg := by
  rw [get_aff, get_aff, get_pair_neg, get_pair_eq_spec L e h]
  simp only [spec_sub_a, spec_sub_b]
  congr 1
  funext i j k
  exact indicator_symm _ _

theorem affinity_direction_symm_witness :
    fits sampleT3 ⟨1, 0, 0⟩ ∧
    get_aff sampleT3 ⟨1, 0, 0⟩ = get_aff sampleT3 (Edge3.neg ⟨1, 0, 0⟩) :=
  ⟨by decide, affinity_direction_symm sampleT3 ⟨1, 0, 0⟩ (by decide)⟩

/-- C7: for every label volume with three trailing spatial dimensions and
every integer 3-D offset that fits inside it, the two sub-volumes returned
by `get_pair` have identical shape, equal componentwise to the volume's
shape minus the absolute offset (equivalently minus `offset1 + offset2`),
so the elementwise comparison in `get_aff` is well-defined. -/
theorem extract_shape_invariant (L : Tensor3) (e : Edge3) (h : fits L e) :
    (get_pair L e).1.shape =
      (L.s0 - e.e0.natAbs, L.s1 - e.e1.natAbs, L.s2 - e.e2.natAbs) ∧
    (get_pair L e).2.shape =
      (L.s0 - e.e0.natAbs, L.s1 - e.e1.natAbs, L.s2 - e.e2.natAbs) := by
  rw [get_pair_eq_spec L e h]
  exact ⟨rfl, rfl⟩

theorem extract_shape_invariant_witness :
    fits sampleT3 ⟨1, 0, 0⟩ ∧
    ((get_pair sampleT3 ⟨1, 0, 0⟩).1.shape =
        (sampleT3.s0 - (1 : Int).natAbs, sampleT3.s1 - (0 : Int).natAbs,
          sampleT3.s2 - (0 : Int).natAbs) ∧
      (get_pair sampleT3 ⟨1, 0, 0⟩).2.shape =
        (sampleT3.s0 - (1 : Int).natAbs, sampleT3.s1 - (0 : Int).natAbs,
          sampleT3.s2 - (0 : Int).natAbs)) :=
  ⟨by decide, extract_shape_invariant sampleT3 ⟨1, 0, 0⟩ (by decide)⟩

/-- C9 counterexample: an offset component (2) exceeding the corresponding
axis length (1) does NOT make the extraction fail.  Python's basic slicing
clamps out-of-range bounds, so `get_pair` on a `1 x 1 x 1` volume with edge
`(2, 0, 0)` silently returns two empty sub-volumes of shape `(0, 1, 1)`
instead of raising a shape error, refuting the second half of the claim. -/
theorem get_pair_no_error_on_large_offset :
    get_pair_checked [1, 1, 1] ⟨2, 0, 0⟩ =
      Except.ok ([0, 1, 1], [0, 1, 1]) := rfl

/-- C9 amended: the extraction fails (with an IndexError while reading the
trailing shape) exactly when the volume has fewer than 3 trailing spatial
dimensions; an offset component exceeding the axis length never makes
`get_pair` fail, since Python slicing clamps and returns (possibly empty)
sub-volumes. -/
theorem get_pair_error_iff_rank_lt_3 (shape : List Nat) (e : Edge3) :
    (get_pair_checked shape e).isOk = true ↔ 3 ≤ shape.length := by
  unfold get_pair_checked
  by_cases h : 3 ≤ shape.length
  · simp [h, Except.isOk, Except.toBool]
  · simp [h, Except.isOk, Except.toBool]

/-- C10: on an empty batch, `get_critical_masks` fails with an index error
while allocating the batch mask array (it reads `preds[0].shape`): the
result is the same error for every detector, so no worker task is ever
consulted, and no stats and no partial mask are returned. -/
theorem get_critical_masks_empty_batch
    (detect : Tensor3 → Tensor3 → Tensor3 × Nat) (beta : ℚ)
    (targets : List Tensor4) :
    get_critical_masks detect beta [] targets =
      Except.error "IndexError: list index out of range" := rfl

/-- C8: for binary split and merge masks and `beta ∈ [0, 1]`, every voxel of
the combined critical mask `beta * split + (1 - beta) * merge` (built, as in
the source, by the two scaled in-place additions into the zero-initialised
slot) lies in `[0, 1]`. -/
theorem critical_mask_beta_bounds (beta : ℚ) (split_mask merge_mask : Tensor3)
    (hs : ∀ i j k, split_mask.data i j k = 0 ∨ split_mask.data i j k = 1)
    (hm : ∀ i j k, merge_mask.data i j k = 0 ∨ merge_mask.data i j k = 1)
    (hb0 : 0 ≤ beta) (hb1 : beta ≤ 1) (i j k : Nat) :
    0 ≤ (addScaled (1 - beta) merge_mask
          (addScaled beta split_mask (zerosLike split_mask))).data i j k ∧
    (addScaled (1 - beta) merge_mask
          (addScaled beta split_mask (zerosLike split_mask))).data i j k ≤ 1 := by
  rcases hs i j k with h1 | h1 <;> rcases hm i j k with h2 | h2 <;>
    simp only [addScaled, zerosLike, h1, h2] <;> constructor <;> nlinarith

/-- A concrete all-ones binary mask used by the C8 witness. -/
def sampleOnes : Tensor3 := ⟨1, 1, 1, fun _ _ _ => 1⟩

theorem critical_mask_beta_bounds_witness :
    (∀ i j k, sampleOnes.data i j k = 0 ∨ sampleOnes.data i j k = 1) ∧
    (0 : ℚ) ≤ 1 / 2 ∧ (1 / 2 : ℚ) ≤ 1 ∧
    (0 ≤ (addScaled (1 - 1 / 2) sampleOnes
          (addScaled (1 / 2) sampleOnes (zerosLike sampleOnes))).data 0 0 0 ∧
      (addScaled (1 - 1 / 2) sampleOnes
          (addScaled (1 / 2) sampleOnes (zerosLike sampleOnes))).data 0 0 0 ≤ 1) :=
  ⟨fun _ _ _ => Or.inr rfl, by norm_num, by norm_num,
    critical_mask_beta_bounds (1 / 2) sampleOnes sampleOnes
      (fun _ _ _ => Or.inr rfl) (fun _ _ _ => Or.inr rfl)
      (by norm_num) (by norm_num) 0 0 0⟩

/-- C1 (code bug): the decoder is meant to return channel `i` of `x`
windowed by the offsets of `edges[i]`, but `get_pair_first` evaluates the
undefined name `arr`, so every decoder call raises
`NameError: name 'arr' is not defined` — here shown on a well-formed input
(one edge, one channel, index 0) that satisfies every precondition of the
claim. -/
theorem decoder_forward_raises_nameerror :
    Decoder_forward [⟨1, 0, 0⟩] sampleT4 0 =
      Except.error "NameError: name 'arr' is not defined" := rfl

/-- C5 (code bug): with `alpha = 0` and a non-empty batch with at least one
edge, `forward` never returns a loss at all: the very first decoder call
raises the `NameError` of `get_pair_first`, so the claimed equality with
the sum of unweighted mean criterion losses describes the intended

behavior, not what the code does. -/
theorem forward_raises_nameerror_alpha_zero :
    svForward [⟨1, 0, 0⟩] 0 (1 / 2) (1 / 2) (fun p t => (p - t) * (p - t))
      sampleWatershed sampleDetect [sampleT4] [sampleT4b] =
      Except.error "NameError: name 'arr' is not defined" := rfl

-- Generic lemmas about `updateAt` and list folds, used for the batch
-- orchestration proofs.

theorem updateAt_length {α : Type} (l : List α) (i : Nat) (f : α → α) :
    (updateAt l i f).length = l.length := by
  induction l generalizing i with
  | nil => rfl
  | cons a l ih =>
    cases i with
    | zero => rfl
    | succ i => simp [updateAt, ih]

theorem getD_updateAt_self {α : Type} (l : List α) (i : Nat) (f : α → α) (d : α)
    (h : i < l.length) : (updateAt l i f).getD i d = f (l.getD i d) := by
  induction l generalizing i with
  | nil => simp at h
  | cons a l ih =>
    cases i with
    | zero => rfl
    | succ i => simpa [updateAt] using ih i (by simpa using h)

theorem getD_updateAt_ne {α : Type} (l : List α) (i j : Nat) (f : α → α) (d : α)
    (h : j ≠ i) : (updateAt l j f).getD i d = l.getD i d := by
  induction l generalizing i j with
  | nil => rfl
  | cons a l ih =>
    cases j with
    | zero =>
      cases i with
      | zero => exact absurd rfl h
      | succ i => rfl
    | succ j =>
      cases i with
      | zero => rfl
      | succ i => simpa [updateAt] using ih i j (fun hh => h (by omega))

theorem updateAt_comm_of {α : Type} (f g : α → α) (l : List α) :
    ∀ (i j : Nat), (i = j → ∀ x, f (g x) = g (f x)) →
      updateAt (updateAt l i f) j g = updateAt (updateAt l j g) i f := by
  induction l with
  | nil => intro i j _; rfl
  | cons a l ih =>
    intro i j hc
    cases i with
    | zero =>
      cases j with
      | zero => simp [updateAt, hc rfl a]
      | succ j => rfl
    | succ i =>
      cases j with
      | zero => rfl
      | succ j =>
        simp only [updateAt]
        exact congrArg _ (ih i j (fun hij => hc (by omega)))

theorem addScaled_comm (c1 c2 : ℚ) (m1 m2 t : Tensor3) :
    addScaled c1 m1 (addScaled c2 m2 t) = addScaled c2 m2 (addScaled c1 m1 t) := by
  unfold addScaled
  congr 1
  funext i j k
  ring

theorem processResult_masks_length (beta : ℚ) (B : Nat) (st : CMState) (r : TaggedResult) :
    (processResult beta B st r).masks.length = st.masks.length := by
  unfold processResult
  split <;> simp [updateAt_length]

theorem processResult_comm (beta : ℚ) (B : Nat) (st : CMState) (a b : TaggedResult) :
    processResult beta B (processResult beta B st a) b =
      processResult beta B (processResult beta B st b) a := by
  unfold processResult
  by_cases ha : a.ctype = -1 <;> by_cases hb : b.ctype = -1 <;>
    simp [ha, hb] <;>
    and_intros <;>
    first
      | exact updateAt_comm_of _ _ _ _ _ (fun _ x => addScaled_comm _ _ _ _ x)
      | ring
      | trivial

theorem foldl_processResult_length (beta : ℚ) (B : Nat) (l : List TaggedResult) (st : CMState) :
    (l.foldl (processResult beta B) st).masks.length = st.masks.length := by
  induction l generalizing st with
  | nil => rfl
  | cons r l ih => rw [List.foldl_cons, ih, processResult_masks_length]

/-- The contribution of one worker result to the running `Splits` sum. -/
def splitContrib (B : Nat) (r : TaggedResult) : ℚ :=
  if r.ctype = -1 then (r.n : ℚ) / (B : ℚ) else 0

/-- The contribution of one worker result to the running `Merges` sum. -/
def mergeContrib (B : Nat) (r : TaggedResult) : ℚ :=
  if r.ctype = -1 then 0 else (r.n : ℚ) / (B : ℚ)

/-- The contribution of one worker result to voxel `(x, y, z)` of mask slot `i`. -/
def maskContrib (beta : ℚ) (i x y z : Nat) (r : TaggedResult) : ℚ :=
  if r.pid = i then (if r.ctype = -1 then beta else 1 - beta) * r.mask.data x y z else 0

theorem foldl_splits (beta : ℚ) (B : Nat) (l : List TaggedResult) (st : CMState) :
    (l.foldl (processResult beta B) st).splits =
      st.splits + (l.map (splitContrib B)).sum := by
  induction l generalizing st with
  | nil => simp
  | cons r l ih =>
    rw [List.foldl_cons, ih, List.map_cons, List.sum_cons]
    unfold processResult splitContrib
    by_cases h : r.ctype = -1 <;> simp [h] <;> ring

theorem foldl_merges (beta : ℚ) (B : Nat) (l : List TaggedResult) (st : CMState) :
    (l.foldl (processResult beta B) st).merges =
      st.merges + (l.map (mergeContrib B)).sum := by
  induction l generalizing st with
  | nil => simp
  | cons r l ih =>
    rw [List.foldl_cons, ih, List.map_cons, List.sum_cons]
    unfold processResult mergeContrib
    by_cases h : r.ctype = -1 <;> simp [h] <;> ring

theorem processResult_masks_getD_self (beta : ℚ) (B : Nat) (st : CMState)
    (r : TaggedResult) (h : r.pid < st.masks.length) :
    (processResult beta B st r).masks.getD r.pid default =
      addScaled (if r.ctype = -1 then beta else 1 - beta) r.mask
        (st.masks.getD r.pid default) := by
  unfold processResult
  by_cases hc : r.ctype = -1
  · rw [if_pos hc, if_pos hc]
    exact getD_updateAt_self _ _ _ _ h
  · rw [if_neg hc, if_neg hc]
    exact getD_updateAt_self _ _ _ _ h

theorem processResult_masks_getD_ne (beta : ℚ) (B : Nat) (st : CMState)
    (r : TaggedResult) (i : Nat) (hp : r.pid ≠ i) :
    (processResult beta B st r).masks.getD i default = st.masks.getD i default := by
  unfold processResult
  by_cases hc : r.ctype = -1
  · rw [if_pos hc]
    exact getD_updateAt_ne _ _ _ _ _ hp
  · rw [if_neg hc]
    exact getD_updateAt_ne _ _ _ _ _ hp

theorem foldl_mask_data (beta : ℚ) (B : Nat) (l : List TaggedResult) (st : CMState)
    (i x y z : Nat) (h : i < st.masks.length) :
    ((l.foldl (processResult beta B) st).masks.getD i default).data x y z =
      (st.masks.getD i default).data x y z + (l.map (maskContrib beta i x y z)).sum := by
  induction l generalizing st with
  | nil => simp
  | cons r l ih =>
    rw [List.foldl_cons,
      ih (processResult beta B st r) (by rw [processResult_masks_length]; exact h)]
    have key : ((processResult beta B st r).masks.getD i default).data x y z =
        (st.masks.getD i default).data x y z + maskContrib beta i x y z r := by
      by_cases hp : r.pid = i
      · subst hp
        rw [processResult_masks_getD_self beta B st r h]
        simp [maskContrib, addScaled]
      · rw [processResult_masks_getD_ne beta B st r i hp]
        simp only [maskContrib, if_neg hp, add_zero]
    rw [key, List.map_cons, List.sum_cons]
    ring

theorem get_critical_mask_pid (detect : Tensor3 → Tensor3 → Tensor3 × Nat)
    (t p : Tensor3) (i : Nat) (c : Int) :
    (get_critical_mask detect t p i c).pid = i := rfl

theorem get_critical_mask_ctype (detect : Tensor3 → Tensor3 → Tensor3 × Nat)
    (t p : Tensor3) (i : Nat) (c : Int) :
    (get_critical_mask detect t p i c).ctype = c := rfl

theorem get_critical_mask_mask (detect : Tensor3 → Tensor3 → Tensor3 × Nat)
    (t p : Tensor3) (i : Nat) (c : Int) :
    (get_critical_mask detect t p i c).mask = (detect t p).1 := rfl

theorem get_critical_mask_n (detect : Tensor3 → Tensor3 → Tensor3 × Nat)
    (t p : Tensor3) (i : Nat) (c : Int) :
    (get_critical_mask detect t p i c).n = (detect t p).2 := rfl

theorem sum_map_flatMap {α : Type} (l : List α) (g : α → List TaggedResult)
    (f : TaggedResult → ℚ) :
    ((l.flatMap g).map f).sum = (l.map (fun a => ((g a).map f).sum)).sum := by
  induction l with
  | nil => rfl
  | cons a l ih => simp [List.flatMap_cons, List.map_append, List.sum_append, ih]

theorem filter_flatMap {α : Type} (l : List α) (g : α → List TaggedResult)
    (p : TaggedResult → Bool) :
    (l.flatMap g).filter p = l.flatMap (fun a => (g a).filter p) := by
  induction l with
  | nil => rfl
  | cons a l ih => simp [List.flatMap_cons, List.filter_append, ih]

theorem flatMap_nil_of {α : Type} (h : α → List TaggedResult) (l : List α)
    (hz : ∀ a ∈ l, h a = []) : l.flatMap h = [] := by
  induction l with
  | nil => rfl
  | cons a l ih =>
    rw [List.flatMap_cons, hz a (List.mem_cons_self a l),
      ih (fun b hb => hz b (List.mem_cons_of_mem a hb))]
    rfl

theorem flatMap_eq_single (h : Nat → List TaggedResult) :
    ∀ (n i : Nat), i < n → (∀ j, j ≠ i → h j = []) →
      (List.range n).flatMap h = h i := by
  intro n
  induction n with
  | zero => intro i hi; omega
  | succ n ih =>
    intro i hi hz
    rw [List.range_succ, List.flatMap_append]
    by_cases hni : i = n
    · subst hni
      rw [flatMap_nil_of h (List.range i)
        (fun a ha => hz a (by have := List.mem_range.mp ha; omega))]
      simp
    · rw [ih i (by omega) hz]
      simp [hz n (fun hh => hni hh.symm)]

theorem sum_range_single (v : Nat → ℚ) :
    ∀ (B i : Nat), i < B →
      ((List.range B).map (fun j => if j = i then v j else 0)).sum = v i := by
  intro B
  induction B with
  | zero => intro i h; omega
  | succ B ih =>
    intro i h
    rw [List.range_succ, List.map_append, List.sum_append]
    by_cases hi : i = B
    · subst hi
      have hz : ((List.range i).map (fun j => if j = i then v j else 0)).sum = 0 := by
        apply List.sum_eq_zero
        intro x hx
        obtain ⟨j, hj, rfl⟩ := List.mem_map.mp hx
        have : j ≠ i := by have := List.mem_range.mp hj; omega
        simp [this]
      simp [hz]
    · have hB : B ≠ i := fun hh => hi hh.symm
      rw [ih i (by omega)]
      simp [hB]

theorem sum_map_div_const {α : Type} (l : List α) (f : α → ℚ) (c : ℚ) :
    (l.map (fun a => f a / c)).sum = (l.map f).sum / c := by
  induction l with
  | nil => simp
  | cons a l ih => simp [ih, add_div]

theorem getD_map_const {α β : Type} (l : List α) (b : β) (d : β) :
    ∀ i, i < l.length → (l.map (fun _ => b)).getD i d = b := by
  induction l with
  | nil => intro i h; simp at h
  | cons a l ih =>
    intro i h
    cases i with
    | zero => rfl
    | succ i => simpa using ih i (by simpa using h)

/-- The final accumulator state of `get_critical_masks` on a non-empty batch:
the zero-initialised state after folding all completed worker results (in
submission order; permutation invariance is proved separately). -/
def cmFinal (detect : Tensor3 → Tensor3 → Tensor3 × Nat) (beta : ℚ)
    (preds : List Tensor3) (targets : List Tensor4) : CMState :=
  (criticalTasks detect preds targets).foldl (processResult beta preds.length)
    ⟨preds.map (fun _ => zerosLike (preds.headD default)), 0, 0⟩

theorem get_critical_masks_cons (detect : Tensor3 → Tensor3 → Tensor3 × Nat)
    (beta : ℚ) (p0 : Tensor3) (rest : List Tensor3) (targets : List Tensor4) :
    get_critical_masks detect beta (p0 :: rest) targets =
      Except.ok ((cmFinal detect beta (p0 :: rest) targets).masks,
        (cmFinal detect beta (p0 :: rest) targets).splits,
        (cmFinal detect beta (p0 :: rest) targets).merges) := rfl

/-- C3: for every batch and every example index `i`, `get_critical_masks`
dispatches exactly two analyses for `i` — the split analysis calls the
critical detector with target volume `i` (the single channel of the `i`-th
target) as reference and predicted volume `i` as candidate and is tagged
`(i, -1)`, and the merge analysis calls it with reference and candidate
reversed, tagged `(i, 1)` — and folding the completed results in any
completion order (any permutation of the submitted tasks) produces the same
state, i.e. each result is routed purely by its (example-index,
analysis-type) tag. -/
theorem critical_dispatch_and_routing (detect : Tensor3 → Tensor3 → Tensor3 × Nat)
    (beta : ℚ) (preds : List Tensor3) (targets : List Tensor4) (i : Nat)
    (hi : i < preds.length) :
    (criticalTasks detect preds targets).filter (fun r => r.pid == i) =
      [get_critical_mask detect ((targets.getD i default).chan 0) (preds.getD i default) i (-1),
       get_critical_mask detect (preds.getD i default) ((targets.getD i default).chan 0) i 1] ∧
    ∀ (st : CMState) (rs : List TaggedResult),
      rs.Perm (criticalTasks detect preds targets) →
      rs.foldl (processResult beta preds.length) st =
        (criticalTasks detect preds targets).foldl (processResult beta preds.length) st := by
  constructor
  · have h1 :
        (criticalTasks detect preds targets).filter (fun r => r.pid == i) =
        (List.range preds.length).flatMap (fun j =>
          ([get_critical_mask detect ((targets.getD j default).chan 0) (preds.getD j default) j (-1),
            get_critical_mask detect (preds.getD j default) ((targets.getD j default).chan 0) j 1]).filter
            (fun r => r.pid == i)) :=
      filter_flatMap _ _ _
    have hz : ∀ j, j ≠ i →
        ([get_critical_mask detect ((targets.getD j default).chan 0) (preds.getD j default) j (-1),
          get_critical_mask detect (preds.getD j default) ((targets.getD j default).chan 0) j 1]).filter
          (fun r => r.pid == i) = [] := by
      intro j hj
      simp [get_critical_mask_pid, hj]
    rw [h1, flatMap_eq_single _ preds.length i hi hz]
    simp [get_critical_mask_pid]
  · intro st rs hperm
    exact hperm.foldl_eq'
      (fun x _ y _ z => processResult_comm beta preds.length z x y) st

theorem critical_dispatch_and_routing_witness :
    0 < ([sampleT3] : List Tensor3).length ∧
    (((criticalTasks sampleDetect [sampleT3] [sampleT4]).filter (fun r => r.pid == 0) =
      [get_critical_mask sampleDetect (((([sampleT4] : List Tensor4)).getD 0 default).chan 0)
          (([sampleT3] : List Tensor3).getD 0 default) 0 (-1),
       get_critical_mask sampleDetect (([sampleT3] : List Tensor3).getD 0 default)
          (((([sampleT4] : List Tensor4)).getD 0 default).chan 0) 0 1]) ∧
    ∀ (st : CMState) (rs : List TaggedResult),
      rs.Perm (criticalTasks sampleDetect [sampleT3] [sampleT4]) →
      rs.foldl (processResult (1 / 2) ([sampleT3] : List Tensor3).length) st =
        (criticalTasks sampleDetect [sampleT3] [sampleT4]).foldl
          (processResult (1 / 2) ([sampleT3] : List Tensor3).length) st) :=
  ⟨by decide,
    critical_dispatch_and_routing sampleDetect (1 / 2) [sampleT3] [sampleT4] 0 (by decide)⟩

/-- C4: for every non-empty batch (with the critical detector abstract, so
each analysis returns a pair of a mask and a count), `get_critical_masks`
returns for each example `i` the mask
`beta * split_mask[i] + (1 - beta) * merge_mask[i]` voxelwise, and stats
whose `Splits` entry is the arithmetic mean over examples of the split
counts and whose `Merges` entry is the mean of the merge counts. -/
theorem critical_masks_combination_and_stats
    (detect : Tensor3 → Tensor3 → Tensor3 × Nat) (beta : ℚ)
    (preds : List Tensor3) (targets : List Tensor4)
    (hne : preds ≠ []) (hlen : targets.length = preds.length) :
    ∃ masks sp mg,
      get_critical_masks detect beta preds targets = Except.ok (masks, sp, mg) ∧
      (∀ i, i < preds.length → ∀ x y z,
        (masks.getD i default).data x y z =
          beta * (detect ((targets.getD i default).chan 0) (preds.getD i default)).1.data x y z +
          (1 - beta) *
            (detect (preds.getD i default) ((targets.getD i default).chan 0)).1.data x y z) ∧
      sp = ((List.range preds.length).map (fun i =>
          ((detect ((targets.getD i default).chan 0) (preds.getD i default)).2 : ℚ))).sum /
        (preds.length : ℚ) ∧
      mg = ((List.range preds.length).map (fun i =>
          ((detect (preds.getD i default) ((targets.getD i default).chan 0)).2 : ℚ))).sum /
        (preds.length : ℚ) := by
  obtain ⟨p0, rest, rfl⟩ : ∃ p0 rest, preds = p0 :: rest := by
    cases preds with
    | nil => exact absurd rfl hne
    | cons a l => exact ⟨a, l, rfl⟩
  refine ⟨(cmFinal detect beta (p0 :: rest) targets).masks,
    (cmFinal detect beta (p0 :: rest) targets).splits,
    (cmFinal detect beta (p0 :: rest) targets).merges,
    get_critical_masks_cons detect beta p0 rest targets, ?_, ?_, ?_⟩
  · intro i hi x y z
    have hi' : i < ((p0 :: rest).map
        (fun _ : Tensor3 => zerosLike ((p0 :: rest).headD default))).length := by
      simpa using hi
    rw [cmFinal,
      foldl_mask_data beta (p0 :: rest).length (criticalTasks detect (p0 :: rest) targets)
        ⟨(p0 :: rest).map (fun _ => zerosLike ((p0 :: rest).headD default)), 0, 0⟩ i x y z hi',
      getD_map_const (p0 :: rest) (zerosLike ((p0 :: rest).headD default)) default i hi]
    have hcong : ∀ j ∈ List.range (p0 :: rest).length,
        (([get_critical_mask detect ((targets.getD j default).chan 0)
              ((p0 :: rest).getD j default) j (-1),
            get_critical_mask detect ((p0 :: rest).getD j default)
              ((targets.getD j default).chan 0) j 1]).map
          (maskContrib beta i x y z)).sum =
        (if j = i then
          beta * (detect ((targets.getD i default).chan 0)
              ((p0 :: rest).getD i default)).1.data x y z +
          (1 - beta) * (detect ((p0 :: rest).getD i default)
              ((targets.getD i default).chan 0)).1.data x y z
         else 0) := by
      intro j hj
      by_cases hij : j = i
      · subst hij
        simp [maskContrib, get_critical_mask_pid, get_critical_mask_ctype,
          get_critical_mask_mask]
      · simp [maskContrib, get_critical_mask_pid, hij]
    rw [criticalTasks, sum_map_flatMap, List.map_congr_left hcong,
      sum_range_single _ _ i hi]
    simp [zerosLike]
  · rw [cmFinal, foldl_splits]
    have hcong : ∀ j ∈ List.range (p0 :: rest).length,
        (([get_critical_mask detect ((targets.getD j default).chan 0)
              ((p0 :: rest).getD j default) j (-1),
            get_critical_mask detect ((p0 :: rest).getD j default)
              ((targets.getD j default).chan 0) j 1]).map
          (splitContrib (p0 :: rest).length)).sum =
        ((detect ((targets.getD j default).chan 0)
            ((p0 :: rest).getD j default)).2 : ℚ) / ((p0 :: rest).length : ℚ) := by
      intro j hj
      simp [splitContrib, get_critical_mask_ctype, get_critical_mask_n]
    rw [criticalTasks, sum_map_flatMap, List.map_congr_left hcong, sum_map_div_const]
    simp
  · rw [cmFinal, foldl_merges]
    have hcong : ∀ j ∈ List.range (p0 :: rest).length,
        (([get_critical_mask detect ((targets.getD j default).chan 0)
              ((p0 :: rest).getD j default) j (-1),
            get_critical_mask detect ((p0 :: rest).getD j default)
              ((targets.getD j default).chan 0) j 1]).map
          (mergeContrib (p0 :: rest).length)).sum =
        ((detect ((p0 :: rest).getD j default)
            ((targets.getD j default).chan 0)).2 : ℚ) / ((p0 :: rest).length : ℚ) := by
      intro j hj
      simp [mergeContrib, get_critical_mask_ctype, get_critical_mask_n]
    rw [criticalTasks, sum_map_flatMap, List.map_congr_left hcong, sum_map_div_const]
    simp

theorem critical_masks_combination_and_stats_witness :
    ([sampleT3] : List Tensor3) ≠ [] ∧
    ([sampleT4] : List Tensor4).length = ([sampleT3] : List Tensor3).length ∧
    ∃ masks sp mg,
      get_critical_masks sampleDetect (1 / 2) [sampleT3] [sampleT4] =
        Except.ok (masks, sp, mg) ∧
      (∀ i, i < ([sampleT3] : List Tensor3).length → ∀ x y z,
        (masks.getD i default).data x y z =
          (1 / 2) * (sampleDetect ((([sampleT4] : List Tensor4).getD i default).chan 0)
              (([sampleT3] : List Tensor3).getD i default)).1.data x y z +
          (1 - 1 / 2) *
            (sampleDetect (([sampleT3] : List Tensor3).getD i default)
              ((([sampleT4] : List Tensor4).getD i default).chan 0)).1.data x y z) ∧
      sp = ((List.range ([sampleT3] : List Tensor3).length).map (fun i =>
          ((sampleDetect ((([sampleT4] : List Tensor4).getD i default).chan 0)
            (([sampleT3] : List Tensor3).getD i default)).2 : ℚ))).sum /
        (([sampleT3] : List Tensor3).length : ℚ) ∧
      mg = ((List.range ([sampleT3] : List Tensor3).length).map (fun i =>
          ((sampleDetect (([sampleT3] : List Tensor3).getD i default)
            ((([sampleT4] : List Tensor4).getD i default).chan 0)).2 : ℚ))).sum /
        (([sampleT3] : List Tensor3).length : ℚ) :=
  ⟨List.cons_ne_nil sampleT3 [], rfl,
    critical_masks_combination_and_stats sampleDetect (1 / 2) [sampleT3] [sampleT4]
      (List.cons_ne_nil sampleT3 []) rfl⟩
